import Mathlib

/-!
Verification development for the Netflix content-and-viewership analysis
pipeline (src/Milestone1.ipynb). The notebook loads two CSV tables, merges
them on the show identifier, derives a five-year interval column and an
exploded genre column, aggregates by one or two dimensions and hands the
long-form result to a plotting library. Each definition below is a shallow
embedding of one piece of that notebook; the doc comment of each definition
names the cell and lines it embeds.
-/

/-- Semantic values of the Python cells the pipeline manipulates: strings,
integers, the null marker (None or NaN), and lists encoded by nil and cons. -/
inductive PyVal where
  | str (s : String)
  | int (n : Int)
  | vnone
  | listNil
  | listCons (hd tl : PyVal)
deriving DecidableEq

/-- Abstract syntax of a parsed Python expression, as fed to eval: string
literals, integer literals, list literals (nil and cons), and function calls.
A genre cell in the source CSV is text that parses to one of these. -/
inductive PyExpr where
  | strLit (s : String)
  | intLit (n : Int)
  | listNil
  | listCons (hd tl : PyExpr)
  | call (fn : String) (arg : PyExpr)
deriving DecidableEq

/-- Semantics of the builtin eval used at notebook lines 168 and 233:
a general-purpose expression evaluator. It returns the list of side effects
it executed (one entry naming each function it called) together with the
resulting value; evaluating a call runs arbitrary code. -/
def pyEval : PyExpr → List String × PyVal
  | .strLit s => ([], .str s)
  | .intLit n => ([], .int n)
  | .listNil => ([], .listNil)
  | .listCons h t =>
      let eh := pyEval h
      let et := pyEval t
      (eh.1 ++ et.1, .listCons eh.2 et.2)
  | .call fn arg => ((pyEval arg).1 ++ [fn], .vnone)

/-- Modelled from the spec: the safe structured-literal parser the spec
demands for the genre column (restricted to literal lists, strings and
numbers). It executes nothing and rejects any expression containing a call.
The notebook does not contain this function; it calls eval instead. -/
def safe_literal_eval : PyExpr → Option PyVal
  | .strLit s => some (.str s)
  | .intLit n => some (.int n)
  | .listNil => some .listNil
  | .listCons h t =>
      match safe_literal_eval h, safe_literal_eval t with
      | some vh, some vt => some (.listCons vh vt)
      | _, _ => none
  | .call _ _ => none

/-- Embedding of the genre normalization lambda at notebook lines 168 and 233,
lambda x: eval(x) if isinstance(x, str) else x. A string cell is carried as
its parsed expression (Sum.inl); a non-string cell is carried as its value
(Sum.inr) and passed through unchanged. The first component is the list of
side effects executed while normalizing the cell. -/
def normalize_genre_cell : PyExpr ⊕ PyVal → List String × PyVal
  | .inl e => pyEval e
  | .inr v => ([], v)

/-- A genre string an attacker can place in the CSV: it parses to a call
expression, so eval executes it. -/
def genre_attack_expr : PyExpr :=
  .call "__import__(os).system" (.strLit "echo pwned")

/-- Embedding of the merge stage (notebook lines 76-81): the pandas inner
merge of the two key-normalized tables on show_id. A table is a list of rows,
each row carried as its integer key paired with its remaining columns; the
inner merge emits, for each left row and each right row with an equal key,
one output row holding the key together with both payloads, in left-major
order as pandas does. -/
def innerMerge {α β : Type} (left : List (Int × α)) (right : List (Int × β)) :
    List (Int × α × β) :=
  left.bind fun la =>
    (right.filter fun rb => rb.1 = la.1).map fun rb => (la.1, la.2, rb.2)

/-- Left table of the duplicate-key counterexample: two rows with key 1. -/
def mergeLeftDup : List (Int × Nat) := [(1, 0), (1, 1)]

/-- Right table of the duplicate-key counterexample: two rows with key 1. -/
def mergeRightDup : List (Int × Nat) := [(1, 2), (1, 3)]

/-- Left table of the merge witness scenario: one content row with key 1. -/
def mergeLeftW : List (Int × Nat) := [(1, 10)]

/-- Right table of the merge witness scenario: viewership rows with
keys 1 and 2. -/
def mergeRightW : List (Int × Nat) := [(1, 20), (2, 30)]

/-- Embedding of the genre explosion (notebook lines 169 and 234): pandas
DataFrame.explode on the genres column. Each input row carries its genre
list and its other columns; a non-empty list yields one output row per
element with the other columns copied, and pandas replaces an empty list by
a single row whose genre entry is NaN, modelled as Option.none. -/
def explode {G O : Type} (rows : List (List G × O)) : List (Option G × O) :=
  rows.bind fun go =>
    match go.1 with
    | [] => [(none, go.2)]
    | g :: gs => (g :: gs).map fun x => (some x, go.2)

/-- Embedding of the five-year bucketing at notebook lines 105 and 170:
(release_year // 5) * 5, where // is Python floor division. -/
def year_interval (y : Int) : Int := y.fdiv 5 * 5

/-- Embedding of the two-dimensional count aggregation used at notebook
lines 106-107 and 172-173: groupby on two dimensions, size, unstack with
fill_value 0, then melt back to long form. The distinct values of each
dimension are taken in first-occurrence order; the long-form output lists,
for every second-dimension value and every first-dimension value, the number
of source rows carrying that pair, zero when the pair never occurs. -/
def crossCount {D1 D2 : Type} [DecidableEq D1] [DecidableEq D2]
    (rows : List (D1 × D2)) : List (D1 × D2 × Nat) :=
  ((rows.map Prod.snd).dedup).bind fun b =>
    ((rows.map Prod.fst).dedup).map fun a => (a, b, rows.count (a, b))

/-- Embedding of the two-dimensional sum aggregation at notebook lines
298-299: groupby on age group and region, sum of viewership_count, then
unstack WITHOUT a fill_value, then melt. A pair absent from the source data
has no group, and unstack fills it with NaN, modelled as Option.none; a
present pair carries the sum of its measure column. -/
def crossSum {D1 D2 : Type} [DecidableEq D1] [DecidableEq D2]
    (rows : List (D1 × D2 × Nat)) : List (D1 × D2 × Option Nat) :=
  ((rows.map fun r => r.2.1).dedup).bind fun b =>
    ((rows.map Prod.fst).dedup).map fun a =>
      (a, b,
        match rows.filter fun r => r.1 = a ∧ r.2.1 = b with
        | [] => none
        | l => some ((l.map fun r => r.2.2).sum))

/-- Viewership rows of the missing-combination example: age group 1 watched
in region 1 and age group 2 in region 2, so the pair of age group 1 with
region 2 never occurs. -/
def viewershipRowsCE : List (Nat × Nat × Nat) := [(1, 1, 10), (2, 2, 5)]

/-- Grouping rows of the aggregation witness scenario: three age groups and
two regions with only three pairs actually present. -/
def aggRowsW : List (Nat × Nat) := [(1, 1), (2, 2), (3, 1)]

/-- A pandas DataFrame as the analyses see it: named columns, each a list of
cell values. -/
abbrev Table : Type := List (String × List PyVal)

/-- Column-name membership test, df.columns containment. -/
def hasCol (df : Table) (c : String) : Bool := df.any fun col => col.1 = c

/-- Column subscript df[c], when the column exists. -/
def getCol (df : Table) (c : String) : Option (List PyVal) :=
  (df.find? fun col => col.1 = c).map Prod.snd

/-- Column assignment df[c] = v: overwrites the column in place when it
exists and appends it otherwise, as pandas does. -/
def setCol (df : Table) (c : String) (v : List PyVal) : Table :=
  if hasCol df c then df.map fun col => if col.1 = c then (c, v) else col
  else df ++ [(c, v)]

/-- Elementwise five-year bucketing of a release-year cell; the release year
column of the content dataset holds integers. -/
def bucket_cell : PyVal → PyVal
  | .int n => .int (year_interval n)
  | v => v

/-- Caller-visible state of the table passed to plot_movies_vs_shows
(cell 7) after the call returns: line 105 assigns
data[year_interval] = (data[release_year] // 5) * 5 on the very table
object the caller passed, adding or overwriting that column in place.
When the release_year column is absent, Python raises on the subscript
before any assignment and the table is left as it was. -/
def moviesVsShowsTableAfter (df : Table) : Table :=
  match getCol df "release_year" with
  | some ys => setCol df "year_interval" (ys.map bucket_cell)
  | none => df

/-- Caller-visible state of the table passed to plot_genre_popularity
(cell 11) after the call returns: the guard at lines 163-164 may return
early, and every later write goes to the copy tv_shows taken at line 167,
so the passed table itself is never written. -/
def genrePopularityTableAfter (df : Table) : Table := df

/-- Caller-visible state of the table passed to
plot_genre_distribution_by_region (cell 15) after the call returns: once the
guard at lines 228-229 passes, line 233 reassigns data[genres] to its
normalized form on the caller table itself. The cell normalizer is a
parameter here; the notebook instantiates it with the eval-based lambda. -/
def genreRegionTableAfter (normalize : PyVal → PyVal) (df : Table) : Table :=
  if hasCol df "genres" && hasCol df "viewer_region" then
    match getCol df "genres" with
    | some gs => setCol df "genres" (gs.map normalize)
    | none => df
  else df

/-- Concrete one-column table holding a single 2021 release year. -/
def tableCE : Table := [("release_year", [PyVal.int 2021])]

/-- Embedding of load_dataset (cell 4, lines 57-62): the pandas CSV read for
a source location either yields a table or raises, which the surrounding
try/except turns into a printed diagnostic and the result None. The type
records that nothing escapes the function: the result is always a pair of an
optional table and the list of printed diagnostics. -/
def load_dataset {T : Type} (fetch : Except String T) :
    Option T × List String :=
  match fetch with
  | .ok df => (some df, [])
  | .error e => (none, ["Error loading dataset: " ++ e])

/-- Embedding of the merge cell (cell 5, lines 76-85): when both loaded
datasets are present they are merged on show_id; when either is None the
else branch prints the failure diagnostic and no merged table is produced. -/
def merge_stage {α β : Type} (ndf : Option (List (Int × α)))
    (vdf : Option (List (Int × β))) :
    Option (List (Int × α × β)) × List String :=
  match ndf, vdf with
  | some n, some v => (some (innerMerge n v), [])
  | _, _ => (none, ["Failed to load or merge datasets"])

/-- Control-flow embedding of plot_genre_popularity (cell 11) as a function
of the column names of its argument: the guard at lines 163-164 prints a
diagnostic and returns when genres is absent; otherwise line 167 subscripts
the type column and line 170 subscripts the release_year column, each
raising an uncaught KeyError when its column is missing; with all three
columns present the function runs to completion. The value is the list of
printed diagnostics on a normal return, or the uncaught exception. -/
def plot_genre_popularity_ctrl (cols : List String) :
    Except String (List String) :=
  if "genres" ∉ cols then
    .ok ["No genres column found. Please check the dataset."]
  else if "type" ∉ cols then .error "KeyError: type"
  else if "release_year" ∉ cols then .error "KeyError: release_year"
  else .ok []

/-- Control-flow embedding of plot_genre_distribution_by_region (cell 15) as
a function of the column names of its argument: the guard at lines 228-229
prints a diagnostic and returns when genres or viewer_region is absent, and
those are the only columns the body subscripts. -/
def plot_genre_distribution_ctrl (cols : List String) :
    Except String (List String) :=
  if "genres" ∉ cols ∨ "viewer_region" ∉ cols then
    .ok ["The genres or viewer_region column is not found in the dataset."]
  else .ok []

/-- One row of the merged table as the genre-popularity analysis reads it:
the type column, the normalized genre list and the release year. -/
structure URow where
  type : String
  genres : List String
  release_year : Int
deriving DecidableEq

/-- Embedding of the genre-popularity data path (cell 11, lines 167-172):
rows whose type column equals the exact string SHOW are kept by the boolean
mask at line 167, their genre lists are exploded and their release years
bucketed, and the groupby at line 172 counts occurrences of each pair of
interval and genre. An exploded row whose genre is NaN carries no genre and
is dropped by the groupby, so each kept row contributes exactly one pair per
element of its genre list. -/
def showGenreRows (rows : List URow) : List (Int × String) :=
  (rows.filter fun r => r.type = "SHOW").bind fun r =>
    r.genres.map fun g => (year_interval r.release_year, g)

/-- A content row of type MOVIE carrying the genre Drama, released 2001. -/
def movieRowW : URow := ⟨"MOVIE", ["Drama"], 2001⟩

/-- The genre-popularity count for one interval and one genre: the number of
exploded SHOW rows carrying that pair. -/
def genrePopularityCount (rows : List URow) (interval : Int) (g : String) :
    Nat :=
  (showGenreRows rows).count (interval, g)

/-- C1: for every string value in the genre column, normalization parses it
with a safe structured-literal parser and never executes code. The code
violates this: it normalizes with the general evaluator eval, and on the
concrete attack string the evaluator executes the attacker-chosen call,
while the safe literal parser the spec demands rejects that same string. -/
theorem C1_eval_executes_genre_payload :
    (normalize_genre_cell (Sum.inl genre_attack_expr)).1 =
      ["__import__(os).system"] ∧
    (normalize_genre_cell (Sum.inl genre_attack_expr)).1 ≠ [] ∧
    safe_literal_eval genre_attack_expr = none := by
  refine ⟨rfl, ?_, rfl⟩
  decide

/-- C4: interval bucketing maps every integer year y to floor(y / 5) * 5
(equivalently Euclidean division by the positive constant 5, pinned down by
divisibility and the two-sided bound), is idempotent, is monotone, and takes
the stated values at 2021, 1999 and 0. -/
theorem C4_year_interval_bucketing :
    (∀ y : Int, year_interval y = (y / 5) * 5 ∧ 5 ∣ year_interval y ∧
      year_interval y ≤ y ∧ y < year_interval y + 5) ∧
    (∀ y : Int, year_interval (year_interval y) = year_interval y) ∧
    (∀ y1 y2 : Int, y1 ≤ y2 → year_interval y1 ≤ year_interval y2) ∧
    year_interval 2021 = 2020 ∧ year_interval 1999 = 1995 ∧
    year_interval 0 = 0 := by
  have hdef : ∀ y : Int, year_interval y = (y / 5) * 5 := by
    intro y
    unfold year_interval
    rw [Int.fdiv_eq_ediv _ (by decide)]
  refine ⟨fun y => ⟨hdef y, ?_, ?_, ?_⟩, fun y => ?_, fun y1 y2 h => ?_,
    by decide, by decide, by decide⟩
  · rw [hdef y]; exact ⟨y / 5, Int.mul_comm _ _⟩
  · rw [hdef y]; omega
  · rw [hdef y]; omega
  · rw [hdef (year_interval y), hdef y]; omega
  · rw [hdef y1, hdef y2]; omega

/-- C4 witness: the monotonicity clause applied at the concrete years 1999
and 2021. -/
theorem C4_witness : year_interval 1999 ≤ year_interval 2021 :=
  C4_year_interval_bucketing.2.2.1 1999 2021 (by decide)

/-- Helper: in a table whose keys are pairwise distinct, the rows matching a
given key number one when the key occurs and zero otherwise. -/
theorem length_filter_key {β : Type} (r : List (Int × β)) (k : Int)
    (hr : (r.map Prod.fst).Nodup) :
    (r.filter fun rb => rb.1 = k).length =
      if k ∈ r.map Prod.fst then 1 else 0 := by
  induction r with
  | nil => simp
  | cons hd tl ih =>
    simp only [List.map_cons, List.nodup_cons] at hr
    rw [List.filter_cons]
    by_cases hk : hd.1 = k
    · subst hk
      have h0 : (tl.filter fun rb => rb.1 = hd.1).length = 0 := by
        rw [ih hr.2]
        simp [hr.1]
      simp [h0]
    · rw [if_neg (by simp [hk]), ih hr.2]
      simp only [List.map_cons, List.mem_cons]
      have hne : ¬ k = hd.1 := fun h => hk h.symm
      by_cases hm : k ∈ List.map Prod.fst tl
      · rw [if_pos hm, if_pos (Or.inr hm)]
      · rw [if_neg hm, if_neg (fun h => h.elim hne hm)]

/-- C2 counterexample: with a duplicated key on both sides, the pandas inner
merge produces the per-key cartesian product, so the output holds 4 rows,
which exceeds the minimum input row count 2 and differs from the key-set
intersection cardinality 1; the claim as stated, with no key-uniqueness
hypothesis, is false. -/
theorem C2_counterexample :
    (innerMerge mergeLeftDup mergeRightDup).length = 4 ∧
    ¬ (innerMerge mergeLeftDup mergeRightDup).length ≤
        min mergeLeftDup.length mergeRightDup.length ∧
    ((mergeLeftDup.map Prod.fst).toFinset ∩
      (mergeRightDup.map Prod.fst).toFinset).card = 1 := by
  decide

/-- C2 amended: when the key column holds pairwise distinct values in each
input table, the inner merge output row count equals the cardinality of the
intersection of the two key sets, is at most the minimum of the input row
counts, and every output row is assembled from a left row and a right row
that share its key, carrying both payloads. -/
theorem C2_innerMerge_count {α β : Type} (left : List (Int × α))
    (right : List (Int × β)) (hl : (left.map Prod.fst).Nodup)
    (hr : (right.map Prod.fst).Nodup) :
    (innerMerge left right).length =
      ((left.map Prod.fst).toFinset ∩ (right.map Prod.fst).toFinset).card ∧
    (innerMerge left right).length ≤ min left.length right.length ∧
    ∀ row ∈ innerMerge left right,
      (row.1, row.2.1) ∈ left ∧ (row.1, row.2.2) ∈ right := by
  have hcount : ∀ (l : List (Int × α)), (l.map Prod.fst).Nodup →
      (innerMerge l right).length =
        ((l.map Prod.fst).toFinset ∩ (right.map Prod.fst).toFinset).card := by
    intro l hln
    induction l with
    | nil => simp [innerMerge]
    | cons la ls ih =>
      simp only [List.map_cons, List.nodup_cons] at hln
      have hblock : (innerMerge (la :: ls) right).length =
          (right.filter fun rb => rb.1 = la.1).length +
            (innerMerge ls right).length := by
        simp [innerMerge, List.cons_bind]
      rw [hblock, ih hln.2, length_filter_key right la.1 hr]
      rw [List.map_cons, List.toFinset_cons]
      have hnotin : la.1 ∉ (ls.map Prod.fst).toFinset := by
        simp only [List.mem_toFinset]
        exact hln.1
      by_cases hmem : la.1 ∈ right.map Prod.fst
      · rw [if_pos hmem,
          Finset.insert_inter_of_mem (List.mem_toFinset.mpr hmem),
          Finset.card_insert_of_not_mem (by
            intro hc
            exact hnotin (Finset.mem_of_mem_inter_left hc))]
        omega
      · rw [if_neg hmem,
          Finset.insert_inter_of_not_mem (by
            intro hc
            exact hmem (List.mem_toFinset.mp hc))]
        omega
  refine ⟨hcount left hl, ?_, ?_⟩
  · rw [hcount left hl]
    have h1 : ((left.map Prod.fst).toFinset ∩
        (right.map Prod.fst).toFinset).card ≤ left.length := by
      calc ((left.map Prod.fst).toFinset ∩
            (right.map Prod.fst).toFinset).card
          ≤ (left.map Prod.fst).toFinset.card :=
            Finset.card_le_card Finset.inter_subset_left
        _ = (left.map Prod.fst).length := List.toFinset_card_of_nodup hl
        _ = left.length := List.length_map _ _
    have h2 : ((left.map Prod.fst).toFinset ∩
        (right.map Prod.fst).toFinset).card ≤ right.length := by
      calc ((left.map Prod.fst).toFinset ∩
            (right.map Prod.fst).toFinset).card
          ≤ (right.map Prod.fst).toFinset.card :=
            Finset.card_le_card Finset.inter_subset_right
        _ = (right.map Prod.fst).length := List.toFinset_card_of_nodup hr
        _ = right.length := List.length_map _ _
    omega
  · intro row hrow
    simp only [innerMerge, List.mem_bind, List.mem_map, List.mem_filter,
      decide_eq_true_eq] at hrow
    obtain ⟨la, hla, rb, ⟨hrb, hkey⟩, heq⟩ := hrow
    subst heq
    constructor
    · simpa using hla
    · have hrb2 : (la.1, rb.2) = rb := by rw [← hkey]
      exact hrb2 ▸ hrb

/-- C2 witness: the amended merge theorem applied to the one-row content
table and the two-row viewership table of the scenario, both with distinct
keys. -/
theorem C2_witness :
    (innerMerge mergeLeftW mergeRightW).length = 1 ∧
    (innerMerge mergeLeftW mergeRightW).length ≤
      min mergeLeftW.length mergeRightW.length := by
  refine ⟨?_, (C2_innerMerge_count mergeLeftW mergeRightW (by decide)
    (by decide)).2.1⟩
  rw [(C2_innerMerge_count mergeLeftW mergeRightW (by decide) (by decide)).1]
  decide

/-- C3 counterexample: exploding a table whose single row carries an empty
genre list yields one output row with a null genre entry, not zero rows;
the row does not disappear, and the output row count differs from the sum
of the genre-list lengths. -/
theorem C3_counterexample :
    explode [(([] : List String), (7 : Nat))] = [(none, 7)] ∧
    (explode [(([] : List String), (7 : Nat))]).length ≠
      ([(([] : List String), (7 : Nat))].map fun go => go.1.length).sum := by
  decide

/-- C3 amended: explosion emits one output row per element of each non-empty
genre list, copying the other columns unchanged, and replaces an empty list
by a single row whose genre is null; hence the output row count is the sum
over input rows of max(length, 1), and it equals the sum of the lengths
exactly when every genre list is non-empty. -/
theorem C3_explode_count {G O : Type} (rows : List (List G × O)) :
    (explode rows).length = (rows.map fun go => max go.1.length 1).sum ∧
    ((∀ go ∈ rows, go.1 ≠ []) →
      (explode rows).length = (rows.map fun go => go.1.length).sum) ∧
    (∀ (o : O) (rest : List (List G × O)),
      explode (([], o) :: rest) = (none, o) :: explode rest) ∧
    ∀ (g : G) (gs : List G) (o : O) (rest : List (List G × O)),
      explode ((g :: gs, o) :: rest) =
        ((g :: gs).map fun x => (some x, o)) ++ explode rest := by
  refine ⟨?_, ?_, fun o rest => rfl, fun g gs o rest => rfl⟩
  · induction rows with
    | nil => simp [explode]
    | cons hd tl ih =>
      obtain ⟨gs, o⟩ := hd
      cases gs with
      | nil => simp [explode, List.cons_bind] at ih ⊢; omega
      | cons g gs2 =>
        simp [explode, List.cons_bind] at ih ⊢
        omega
  · intro h
    induction rows with
    | nil => simp [explode]
    | cons hd tl ih =>
      obtain ⟨gs, o⟩ := hd
      cases gs with
      | nil => exact absurd rfl (h ([], o) (by simp))
      | cons g gs2 =>
        simp only [explode, List.cons_bind] at ih ⊢
        have := ih fun go hgo => h go (List.mem_cons_of_mem _ hgo)
        simp at this ⊢
        omega

/-- C3 witness: the scenario row with genres Drama and Comedy and viewership
count 100 explodes into exactly two rows, the sum of the list lengths. -/
theorem C3_witness :
    (explode [(["Drama", "Comedy"], (100 : Nat))]).length =
      ([(["Drama", "Comedy"], (100 : Nat))].map fun go => go.1.length).sum :=
  (C3_explode_count [(["Drama", "Comedy"], (100 : Nat))]).2.1 (by decide)

/-- Helper: binding a constant-shape map over a list yields a rectangle
whose length is the product of the two list lengths. -/
theorem length_bind_const {A B C : Type} (l : List A) (m : List B)
    (f : A → B → C) :
    (l.bind fun a => m.map (f a)).length = l.length * m.length := by
  induction l with
  | nil => simp
  | cons a l ih =>
    simp only [List.cons_bind, List.length_append, List.length_map, ih,
      List.length_cons, Nat.succ_mul]
    omega

/-- C5 counterexample: in the viewership-sum grouping, the combination of
age group 1 with region 2 is absent from the source data; the aggregation
output carries it with a null value, and no output row carries it with the
value zero, so the zero-fill claim fails on this grouping. -/
theorem C5_counterexample :
    ((1 : Nat), (2 : Nat), (none : Option Nat)) ∈ crossSum viewershipRowsCE ∧
    ((1 : Nat), (2 : Nat), some 0) ∉ crossSum viewershipRowsCE := by
  decide

/-- C5 amended: every two-dimensional grouping outputs exactly one row per
pair of a distinct first-dimension value and a distinct second-dimension
value, so the output length is the product of the distinct counts; in the
count aggregations the value of a pair is its number of source occurrences,
which is zero exactly when the pair is absent, while in the viewership-sum
aggregation an absent pair carries a null value instead of zero. -/
theorem C5_aggregation_rectangle {D1 D2 : Type} [DecidableEq D1]
    [DecidableEq D2] (rows : List (D1 × D2)) (vrows : List (D1 × D2 × Nat)) :
    (crossCount rows).length =
      (rows.map Prod.fst).dedup.length * (rows.map Prod.snd).dedup.length ∧
    (∀ a b, a ∈ rows.map Prod.fst → b ∈ rows.map Prod.snd →
      (a, b, rows.count (a, b)) ∈ crossCount rows) ∧
    (∀ a b, (a, b) ∉ rows → rows.count (a, b) = 0) ∧
    (crossSum vrows).length =
      (vrows.map Prod.fst).dedup.length *
        (vrows.map fun r => r.2.1).dedup.length ∧
    ∀ a b, a ∈ vrows.map Prod.fst → b ∈ (vrows.map fun r => r.2.1) →
      (∀ r ∈ vrows, ¬ (r.1 = a ∧ r.2.1 = b)) →
      (a, b, (none : Option Nat)) ∈ crossSum vrows := by
  refine ⟨?_, ?_, ?_, ?_, ?_⟩
  · rw [crossCount, length_bind_const]
    exact Nat.mul_comm _ _
  · intro a b ha hb
    simp only [crossCount, List.mem_bind, List.mem_map]
    exact ⟨b, List.mem_dedup.mpr hb, a, List.mem_dedup.mpr ha, rfl⟩
  · intro a b hab
    exact List.count_eq_zero.mpr hab
  · rw [crossSum, length_bind_const]
    exact Nat.mul_comm _ _
  · intro a b ha hb habs
    have hfil : (vrows.filter fun r => r.1 = a ∧ r.2.1 = b) = [] := by
      rw [List.filter_eq_nil]
      intro r hr
      simpa using habs r hr
    simp only [crossSum, List.mem_bind, List.mem_map]
    refine ⟨b, List.mem_dedup.mpr hb, a, List.mem_dedup.mpr ha, ?_⟩
    rw [hfil]

/-- C5 witness: the scenario with three age groups and two regions but only
three present pairs yields a six-row count aggregation, the pair of age
group 2 with region 1 appears in it valued zero, and in the viewership-sum
data the absent pair of age group 1 with region 2 appears valued null. -/
theorem C5_witness :
    (crossCount aggRowsW).length = 6 ∧
    ((2 : Nat), (1 : Nat), aggRowsW.count (2, 1)) ∈ crossCount aggRowsW ∧
    aggRowsW.count ((2 : Nat), (1 : Nat)) = 0 ∧
    ((1 : Nat), (2 : Nat), (none : Option Nat)) ∈ crossSum viewershipRowsCE := by
  refine ⟨?_, ?_, ?_, ?_⟩
  · rw [(C5_aggregation_rectangle aggRowsW viewershipRowsCE).1]
    decide
  · exact (C5_aggregation_rectangle aggRowsW viewershipRowsCE).2.1 2 1
      (by decide) (by decide)
  · exact (C5_aggregation_rectangle aggRowsW viewershipRowsCE).2.2.1 2 1
      (by decide)
  · exact (C5_aggregation_rectangle aggRowsW viewershipRowsCE).2.2.2.2 1 2
      (by decide) (by decide) (by decide)

/-- Helper: column assignment touches no column other than the assigned
name; any other column of the updated table was already in the table. -/
theorem mem_setCol_of_ne (df : Table) (c : String) (v : List PyVal) :
    ∀ col ∈ setCol df c v, col.1 ≠ c → col ∈ df := by
  intro col hmem hne
  unfold setCol at hmem
  by_cases h : hasCol df c = true
  · rw [if_pos h] at hmem
    obtain ⟨col0, hcol0, heq⟩ := List.mem_map.mp hmem
    by_cases h0 : col0.1 = c
    · rw [if_pos h0] at heq
      cases heq
      exact absurd rfl hne
    · rw [if_neg h0] at heq
      exact heq ▸ hcol0
  · rw [if_neg h] at hmem
    rcases List.mem_append.mp hmem with h1 | h1
    · exact h1
    · have heq : col = (c, v) := List.mem_singleton.mp h1
      subst heq
      exact absurd rfl hne

/-- C6 counterexample: calling plot_movies_vs_shows on a table holding the
single release year 2021 leaves the caller with a table that gained a
year_interval column valued 2020; the passed-in table is not the same after
the call, so the analyses do mutate shared state. -/
theorem C6_counterexample :
    moviesVsShowsTableAfter tableCE ≠ tableCE ∧
    moviesVsShowsTableAfter tableCE =
      [("release_year", [PyVal.int 2021]),
       ("year_interval", [PyVal.int 2020])] := by
  decide

/-- C6 amended: plot_genre_popularity works on a copy and leaves the passed
table unchanged, while plot_movies_vs_shows writes only the year_interval
column of the passed table and plot_genre_distribution_by_region writes only
its genres column: every other column of the table after either call was
already present, unchanged, before the call. -/
theorem C6_analysis_frame (normalize : PyVal → PyVal) (df : Table) :
    genrePopularityTableAfter df = df ∧
    (∀ col ∈ moviesVsShowsTableAfter df, col.1 ≠ "year_interval" →
      col ∈ df) ∧
    (∀ col ∈ genreRegionTableAfter normalize df, col.1 ≠ "genres" →
      col ∈ df) := by
  refine ⟨rfl, ?_, ?_⟩
  · intro col hmem hne
    unfold moviesVsShowsTableAfter at hmem
    cases hg : getCol df "release_year" with
    | some ys =>
      rw [hg] at hmem
      exact mem_setCol_of_ne df _ _ col hmem hne
    | none =>
      rw [hg] at hmem
      exact hmem
  · intro col hmem hne
    unfold genreRegionTableAfter at hmem
    by_cases hb : (hasCol df "genres" && hasCol df "viewer_region") = true
    · rw [if_pos hb] at hmem
      cases hg : getCol df "genres" with
      | some gs =>
        rw [hg] at hmem
        exact mem_setCol_of_ne df _ _ col hmem hne
      | none =>
        rw [hg] at hmem
        exact hmem
    · rw [if_neg hb] at hmem
      exact hmem

/-- C6 witness: on the concrete one-column table, plot_genre_popularity
leaves the table untouched, and the release_year column surviving the
plot_movies_vs_shows call was already in the table before the call. -/
theorem C6_witness :
    genrePopularityTableAfter tableCE = tableCE ∧
    ("release_year", [PyVal.int 2021]) ∈ tableCE :=
  ⟨(C6_analysis_frame id tableCE).1,
   (C6_analysis_frame id tableCE).2.1 ("release_year", [PyVal.int 2021])
     (by decide) (by decide)⟩

/-- C7: for every source location, load_dataset either returns the parsed
table with no diagnostic or returns None after printing the error message;
its return type carries no exception, so nothing raises past its boundary. -/
theorem C7_load_dataset_total {T : Type} (fetch : Except String T) :
    (∃ t, fetch = .ok t ∧ load_dataset fetch = (some t, [])) ∨
    (∃ e, fetch = .error e ∧
      load_dataset fetch = (none, ["Error loading dataset: " ++ e])) := by
  cases fetch with
  | ok t => exact Or.inl ⟨t, rfl, rfl⟩
  | error e => exact Or.inr ⟨e, rfl, rfl⟩

/-- C8: when either loaded dataset is None, the merge cell takes the failure
branch: it prints the failure diagnostic and produces no merged table, and
the merge itself is never executed. -/
theorem C8_merge_skipped_on_null {α β : Type}
    (ndf : Option (List (Int × α))) (vdf : Option (List (Int × β)))
    (h : ndf = none ∨ vdf = none) :
    merge_stage ndf vdf = (none, ["Failed to load or merge datasets"]) := by
  rcases h with h | h
  · subst h
    rfl
  · subst h
    cases ndf <;> rfl

/-- C8 witness: with the content dataset failed and a one-row viewership
dataset loaded, the merge cell produces no table and prints the failure
diagnostic. -/
theorem C8_witness :
    merge_stage (none : Option (List (Int × Nat)))
        (some [((1 : Int), (20 : Nat))]) =
      (none, ["Failed to load or merge datasets"]) :=
  C8_merge_skipped_on_null none (some [((1 : Int), (20 : Nat))])
    (Or.inl rfl)

/-- C9 counterexample: on a table having genres and type columns but no
release_year column, plot_genre_popularity passes its guard and then raises
an uncaught KeyError at the release_year subscript instead of emitting a
diagnostic and returning, so the claim fails for this required column. -/
theorem C9_counterexample :
    plot_genre_popularity_ctrl ["genres", "type"] =
      .error "KeyError: release_year" := by
  rfl

/-- C9 amended: only the genre-dimension columns are guarded: when genres is
absent, plot_genre_popularity emits its diagnostic and returns; when genres
or viewer_region is absent, plot_genre_distribution_by_region emits its
diagnostic and returns; and with genres, type and release_year all present
plot_genre_popularity completes without raising. Absence of the unguarded
type or release_year columns raises an uncaught KeyError. -/
theorem C9_guarded_columns (cols : List String) :
    ("genres" ∉ cols →
      plot_genre_popularity_ctrl cols =
        .ok ["No genres column found. Please check the dataset."]) ∧
    (("genres" ∉ cols ∨ "viewer_region" ∉ cols) →
      plot_genre_distribution_ctrl cols =
        .ok ["The genres or viewer_region column is not found in the dataset."]) ∧
    ("genres" ∈ cols → "type" ∈ cols → "release_year" ∈ cols →
      plot_genre_popularity_ctrl cols = .ok []) := by
  refine ⟨fun h => ?_, fun h => ?_, fun h1 h2 h3 => ?_⟩
  · unfold plot_genre_popularity_ctrl
    rw [if_pos h]
  · unfold plot_genre_distribution_ctrl
    rw [if_pos h]
  · unfold plot_genre_popularity_ctrl
    rw [if_neg (not_not_intro h1), if_neg (not_not_intro h2),
      if_neg (not_not_intro h3)]

/-- C9 witness: on a table whose only column is type, the genres guard of
plot_genre_popularity fires, printing the diagnostic and returning. -/
theorem C9_witness :
    plot_genre_popularity_ctrl ["type"] =
      .ok ["No genres column found. Please check the dataset."] :=
  (C9_guarded_columns ["type"]).1 (by decide)

/-- C10: the genre-popularity aggregation reads only rows whose type column
equals the exact string SHOW: prepending a row of any other type, such as
MOVIE or a differently cased spelling, changes neither the exploded pair
list nor any count. -/
theorem C10_only_show_rows (rows : List URow) (r : URow)
    (h : r.type ≠ "SHOW") :
    showGenreRows (r :: rows) = showGenreRows rows ∧
    ∀ interval g, genrePopularityCount (r :: rows) interval g =
      genrePopularityCount rows interval g := by
  have hfe : showGenreRows (r :: rows) = showGenreRows rows := by
    unfold showGenreRows
    rw [List.filter_cons, if_neg (by simp [h])]
  exact ⟨hfe, fun interval g => by
    unfold genrePopularityCount
    rw [hfe]⟩

/-- C10 witness: a MOVIE row with a genre contributes nothing: prepending it
to the empty table leaves the exploded pair list empty. -/
theorem C10_witness :
    showGenreRows [movieRowW] = showGenreRows [] ∧
    showGenreRows ([] : List URow) = [] :=
  ⟨(C10_only_show_rows [] movieRowW (by decide)).1, rfl⟩
